import Mathlib

/-!
Shallow embedding of `src/app.py`, a Flask + psycopg2 student-records service.

The embedding models:
* JSON values arriving in request bodies (`JVal`), and Python dict access
  (`dictFind`, `dictGet`, `dictGetD`) with Python truthiness (`JVal.truthy`);
* the `students` table created by `init_db` (`Student`, `DB`) together with the
  PostgreSQL behaviour the SQL statements rely on: the UNIQUE constraints on
  `student_id` and `email`, the NOT NULL constraints on `student_id`, `name`
  and `email` (both raise `psycopg2.IntegrityError`), assignment coercion of
  values into the text and integer columns (`asText`, `asInt`), `ILIKE`
  pattern matching (`likeMatch`, `ilike`) and `ORDER BY id DESC` (`sortDesc`);
* the connection provider `get_db_connection` (the attempt to connect is an
  explicit argument, since it is an external effect) and the five request
  handlers, each taking the connection result (`Option DB`, `none` models a
  failed connection) and an optional injected driver fault (`Option String`,
  `some m` models the underlying driver raising a non-integrity exception
  with message `m` during the SQL statement, as psycopg2 may at any time).

Timestamps are modelled at the granularity the handlers observe them: the
rendered `YYYY-MM-DD HH:MM:SS` string (or null), so `created_at` is an
`Option String` and the row-to-JSON rendering is the identity on it.
-/

/-- A JSON value as it can appear in a request body field (objects and arrays
nested inside a field are irrelevant to every code path and are omitted). -/
inductive JVal where
  | null
  | str (s : String)
  | int (n : Int)
  | bool (b : Bool)
deriving DecidableEq

/-- Python truthiness of a JSON value, as tested by `if not data.get(field)`
in `add_student`: None, empty string, 0 and False are falsy. -/
def JVal.truthy : JVal → Bool
  | .null => false
  | .str s => !(s == "")
  | .int n => !(n == 0)
  | .bool b => b

/-- A parsed JSON object body: association list from keys to values. -/
abbrev Req := List (String × JVal)

/-- Python `key in data` style lookup: first binding of the key, if any. -/
def dictFind (d : Req) (k : String) : Option JVal :=
  (d.find? (fun kv => kv.1 == k)).map (fun kv => kv.2)

/-- Python `data.get(k)`: the stored value, or None when the key is absent. -/
def dictGet (d : Req) (k : String) : JVal :=
  (dictFind d k).getD .null

/-- Python `data.get(k, dflt)`: the stored value (even if it is None), or
the default when the key is absent. -/
def dictGetD (d : Req) (k : String) (dflt : JVal) : JVal :=
  (dictFind d k).getD dflt

/-- Removal of a key from a request body (used to state that a falsy field
is treated exactly like an absent one). -/
def dictErase (d : Req) (k : String) : Req :=
  d.filter (fun kv => !(kv.1 == k))

/-- A row of the `students` table. `id` is the SERIAL primary key;
`student_id`, `name`, `email` are NOT NULL; the remaining columns are
nullable. `created_at` is kept in its rendered string form. -/
structure Student where
  id : Nat
  student_id : String
  name : String
  email : String
  phone : Option String
  course : Option String
  year : Option Int
  address : Option String
  created_at : Option String
deriving DecidableEq

/-- The database state: the rows of `students` plus the state of the SERIAL
sequence feeding `id`. -/
structure DB where
  rows : List Student
  nextId : Nat
deriving DecidableEq

/-- Errors surfaced by the modelled PostgreSQL layer. `uniqueViolation` and
`notNullViolation` are the two kinds of `psycopg2.IntegrityError` the schema
can produce; `other` carries the message of any other driver exception
(`str(e)` in the handlers). -/
inductive DbError where
  | uniqueViolation
  | notNullViolation
  | other (msg : String)
deriving DecidableEq

/-- Whether the exception is caught by `except psycopg2.IntegrityError`. -/
def DbError.isIntegrity : DbError → Bool
  | .uniqueViolation => true
  | .notNullViolation => true
  | .other _ => false

/-- The `str(e)` rendering of the exception, as interpolated by handlers. -/
def DbError.message : DbError → String
  | .uniqueViolation => "duplicate key value violates unique constraint"
  | .notNullViolation => "null value violates not-null constraint"
  | .other m => m

/-- PostgreSQL assignment coercion of a parameter into a VARCHAR/TEXT column:
strings are stored as given, NULL stays NULL, and other scalar types are
converted through their output form (assignment casts to string types are
always available via I/O conversion). Never fails. -/
def asText : JVal → Option String
  | .null => none
  | .str s => some s
  | .int n => some (toString n)
  | .bool b => some (if b then "true" else "false")

/-- PostgreSQL assignment coercion of a parameter into the INTEGER column
`year`: NULL and integers pass through, a quoted literal is parsed as an
integer (failing with an input-syntax error otherwise), and a boolean has no
assignment cast to integer. These failures are not integrity errors. -/
def asInt : JVal → Except String (Option Int)
  | .null => .ok none
  | .int n => .ok (some n)
  | .str s =>
    match s.toInt? with
    | some n => .ok (some n)
    | none => .error ("invalid input syntax for type integer: " ++ s)
  | .bool _ => .error "column year is of type integer but expression is of type boolean"

/-- ASCII lower-casing of one character, as PostgreSQL lower() performs on
ASCII input; ILIKE compares both operands lower-cased. -/
def pgLower (c : Char) : Char :=
  match c with
  | 'A' => 'a' | 'B' => 'b' | 'C' => 'c' | 'D' => 'd' | 'E' => 'e' | 'F' => 'f' | 'G' => 'g'
  | 'H' => 'h' | 'I' => 'i' | 'J' => 'j' | 'K' => 'k' | 'L' => 'l' | 'M' => 'm' | 'N' => 'n'
  | 'O' => 'o' | 'P' => 'p' | 'Q' => 'q' | 'R' => 'r' | 'S' => 's' | 'T' => 't' | 'U' => 'u'
  | 'V' => 'v' | 'W' => 'w' | 'X' => 'x' | 'Y' => 'y' | 'Z' => 'z'
  | other => other

/-- Does `f` hold of some suffix of the list (the list itself included)? -/
def anySuffix (f : List Char → Bool) : List Char → Bool
  | [] => f []
  | c :: s => f (c :: s) || anySuffix f s

/-- SQL LIKE pattern matching over characters: `%` matches any sequence
(tried against every suffix of the subject), `_` matches exactly one
character, a backslash escapes the following pattern character, and any
other pattern character matches itself. A pattern ending in a lone
backslash is a PostgreSQL error; it matches nothing here, and the patterns
built by the search handler never produce it. -/
def likeMatch : List Char → List Char → Bool
  | [], s => s.isEmpty
  | p :: ps, s =>
    if p == '%' then
      anySuffix (fun t => likeMatch ps t) s
    else if p == '\\' then
      match ps, s with
      | p' :: ps', c :: s' => (c == p') && likeMatch ps' s'
      | _, _ => false
    else
      match s with
      | [] => false
      | c :: s' => (if p == '_' then true else c == p) && likeMatch ps s'

/-- The `ILIKE` operator: LIKE on the lower-cased subject and pattern. -/
def ilike (s pat : String) : Bool :=
  likeMatch (pat.data.map pgLower) (s.data.map pgLower)

/-- Insertion of a row into a list kept in descending `id` order. -/
def insertById (s : Student) : List Student → List Student
  | [] => [s]
  | t :: ts => if t.id ≤ s.id then s :: t :: ts else t :: insertById s ts

/-- The effect of `ORDER BY id DESC` on a row set. -/
def sortDesc : List Student → List Student
  | [] => []
  | s :: ss => insertById s (sortDesc ss)

/-- The INSERT statement of `add_student`: a driver fault preempts
everything; the parameters are coerced into their column types; the NOT
NULL constraints on `student_id`, `name`, `email` and then the UNIQUE
constraints on `student_id` and `email` are enforced; on success the row is
added with the next SERIAL id and `created_at` defaulted to the current
timestamp, and RETURNING id gives the fresh id back. -/
def DB.sqlInsert (db : DB) (fault : Option String) (now : String)
    (vsid vname vemail vphone vcourse vyear vaddr : JVal) :
    Except DbError (DB × Nat) :=
  match fault with
  | some m => .error (.other m)
  | none =>
    match asInt vyear with
    | .error m => .error (.other m)
    | .ok yr =>
      match asText vsid, asText vname, asText vemail with
      | some sid, some nm, some em =>
        if db.rows.any (fun r => r.student_id == sid || r.email == em) then
          .error .uniqueViolation
        else
          .ok ({ rows := db.rows ++
                   [{ id := db.nextId, student_id := sid, name := nm, email := em,
                      phone := asText vphone, course := asText vcourse, year := yr,
                      address := asText vaddr, created_at := some now }],
                 nextId := db.nextId + 1 }, db.nextId)
      | _, _, _ => .error .notNullViolation

/-- The UPDATE statement of `update_student`: after fault and coercion
checks, if no row has the requested id the statement succeeds with row
count 0; otherwise the NOT NULL and UNIQUE constraints are enforced against
the new values (uniqueness against the other rows) and every mutable column
of the matching row is overwritten, `id` and `created_at` being untouched. -/
def DB.sqlUpdate (db : DB) (fault : Option String) (idv : Nat)
    (vsid vname vemail vphone vcourse vyear vaddr : JVal) :
    Except DbError (DB × Nat) :=
  match fault with
  | some m => .error (.other m)
  | none =>
    match asInt vyear with
    | .error m => .error (.other m)
    | .ok yr =>
      if db.rows.any (fun r => r.id == idv) then
        match asText vsid, asText vname, asText vemail with
        | some sid, some nm, some em =>
          if db.rows.any (fun r => !(r.id == idv) && (r.student_id == sid || r.email == em)) then
            .error .uniqueViolation
          else
            .ok ({ db with rows := db.rows.map (fun r =>
                     if r.id == idv then
                       { id := r.id, student_id := sid, name := nm, email := em,
                         phone := asText vphone, course := asText vcourse, year := yr,
                         address := asText vaddr, created_at := r.created_at }
                     else r) }, 1)
        | _, _, _ => .error .notNullViolation
      else .ok (db, 0)

/-- The DELETE statement of `delete_student`: removes every row with the
requested id and reports how many were removed. -/
def DB.sqlDelete (db : DB) (fault : Option String) (idv : Nat) :
    Except DbError (DB × Nat) :=
  match fault with
  | some m => .error (.other m)
  | none =>
    .ok ({ db with rows := db.rows.filter (fun r => !(r.id == idv)) },
         (db.rows.filter (fun r => r.id == idv)).length)

/-- The SELECT of `get_students`: all rows ordered by id descending. -/
def DB.sqlSelectAll (db : DB) (fault : Option String) :
    Except DbError (List Student) :=
  match fault with
  | some m => .error (.other m)
  | none => .ok (sortDesc db.rows)

/-- The SELECT of `search_students`: rows whose name or student_id matches
`ILIKE '%' || q || '%'`, ordered by id descending. -/
def DB.sqlSearch (db : DB) (fault : Option String) (q : String) :
    Except DbError (List Student) :=
  match fault with
  | some m => .error (.other m)
  | none =>
    .ok (sortDesc (db.rows.filter (fun r =>
      ilike r.name ("%" ++ q ++ "%") || ilike r.student_id ("%" ++ q ++ "%"))))

/-- Environment-sourced configuration as `get_db_connection` reads it:
each entry is the environment variable, absent or present (possibly empty). -/
structure DbConfig where
  database_url : Option String
  db_host : Option String
  db_name : Option String
  db_user : Option String
  db_password : Option String
  db_port : Option String

/-- The module-level fix for the legacy scheme used by Render: a
`DATABASE_URL` starting with the legacy scheme has that single leading
occurrence rewritten. -/
def normalizeUrl (u : String) : String :=
  if u.startsWith "postgres://" then "postgresql://" ++ u.drop 11 else u

/-- What `psycopg2.connect` is asked to connect to. -/
inductive ConnTarget where
  | url (u : String)
  | params (host database user password port : String)
deriving DecidableEq

/-- Configuration resolution inside `get_db_connection`: a truthy
`DATABASE_URL` (normalized) wins; otherwise discrete parameters with the
hard-coded defaults. An empty `DATABASE_URL` is falsy in Python and falls
through to the discrete branch. -/
def connTarget (cfg : DbConfig) : ConnTarget :=
  match cfg.database_url with
  | some u =>
    if u == "" then
      .params (cfg.db_host.getD "localhost") (cfg.db_name.getD "study")
        (cfg.db_user.getD "postgres") (cfg.db_password.getD "@jk3") (cfg.db_port.getD "5432")
    else .url (normalizeUrl u)
  | none =>
    .params (cfg.db_host.getD "localhost") (cfg.db_name.getD "study")
      (cfg.db_user.getD "postgres") (cfg.db_password.getD "@jk3") (cfg.db_port.getD "5432")

/-- The connection provider: attempts to connect to the resolved target
(the attempt is an explicit argument since it is an external effect), wraps
the try/except that converts any exception into a None result. -/
def get_db_connection (cfg : DbConfig) (connect : ConnTarget → Except String DB) :
    Option DB :=
  match connect (connTarget cfg) with
  | .ok conn => some conn
  | .error _ => none

/-- A Python exception escaping a handler (propagating to the framework
instead of being converted to a JSON response by the handler itself). -/
inductive PyExn where
  | badRequest
  | attributeError (msg : String)
deriving DecidableEq

/-- How `request.json` turned out for a request carrying a body:
`notJson` when parsing fails (Flask raises BadRequest from the property
access itself), `jsonNonObject` when the body is valid JSON but not an
object (so `data.get` raises AttributeError with the carried message), or a
parsed object. -/
inductive BodyParse where
  | notJson
  | jsonNonObject (msg : String)
  | jsonObject (d : Req)

/-- A JSON response body produced by a handler. -/
inductive Body where
  | errorObj (msg : String)
  | messageObj (msg : String)
  | createdObj (msg : String) (id : Nat)
  | recordArr (records : List Student)
deriving DecidableEq

/-- The outcome of one request: an HTTP response assembled by the handler,
or an exception that escaped it. -/
inductive Outcome where
  | resp (status : Nat) (body : Body)
  | escaped (e : PyExn)
deriving DecidableEq

/-- Whether the handler produced a response (no exception escaped). -/
def Outcome.isResp : Outcome → Bool
  | .resp _ _ => true
  | .escaped _ => false

/-- The required fields checked by `add_student`, in checking order. -/
def requiredFields : List String := ["student_id", "name", "email"]

/-- The validation loop of `add_student`: the first required field whose
value is falsy (absent fields read as None), if any. -/
def firstInvalid (d : Req) : Option String :=
  requiredFields.find? (fun f => !(dictGet d f).truthy)

/-- `GET /api/students`. -/
def get_students (conn : Option DB) (fault : Option String) : Outcome × Option DB :=
  match conn with
  | none => (.resp 500 (.errorObj "Database connection failed"), none)
  | some db =>
    match db.sqlSelectAll fault with
    | .ok rs => (.resp 200 (.recordArr rs), some db)
    | .error e => (.resp 500 (.errorObj e.message), some db)

/-- `POST /api/students`. Reading `request.json` and the validation loop
happen before the try block: a body that is not a JSON object makes the
exception escape. Validation precedes the connection attempt. -/
def add_student (now : String) (body : BodyParse) (conn : Option DB)
    (fault : Option String) : Outcome × Option DB :=
  match body with
  | .notJson => (.escaped .badRequest, conn)
  | .jsonNonObject m => (.escaped (.attributeError m), conn)
  | .jsonObject d =>
    match firstInvalid d with
    | some f => (.resp 400 (.errorObj (f ++ " is required")), conn)
    | none =>
      match conn with
      | none => (.resp 500 (.errorObj "Database connection failed"), none)
      | some db =>
        match db.sqlInsert fault now (dictGet d "student_id") (dictGet d "name")
            (dictGet d "email") (dictGetD d "phone" (.str ""))
            (dictGetD d "course" (.str "")) (dictGet d "year")
            (dictGetD d "address" (.str "")) with
        | .ok (db', newId) =>
          (.resp 201 (.createdObj "Student added successfully" newId), some db')
        | .error e =>
          if e.isIntegrity then
            (.resp 400 (.errorObj "Student ID or Email already exists"), some db)
          else (.resp 500 (.errorObj e.message), some db)

/-- `PUT /api/students/{id}`. `request.json` is read before the try block
(a parse failure escapes), but the `data.get` calls sit inside it, so a
non-object body is caught by the generic except and answered as a 500. A
zero row count is answered as not-found with a rollback. -/
def update_student (idv : Nat) (body : BodyParse) (conn : Option DB)
    (fault : Option String) : Outcome × Option DB :=
  match body with
  | .notJson => (.escaped .badRequest, conn)
  | .jsonNonObject m =>
    match conn with
    | none => (.resp 500 (.errorObj "Database connection failed"), none)
    | some db => (.resp 500 (.errorObj m), some db)
  | .jsonObject d =>
    match conn with
    | none => (.resp 500 (.errorObj "Database connection failed"), none)
    | some db =>
      match db.sqlUpdate fault idv (dictGet d "student_id") (dictGet d "name")
          (dictGet d "email") (dictGetD d "phone" (.str ""))
          (dictGetD d "course" (.str "")) (dictGet d "year")
          (dictGetD d "address" (.str "")) with
      | .ok (db', rowcount) =>
        if rowcount == 0 then (.resp 404 (.errorObj "Student not found"), some db)
        else (.resp 200 (.messageObj "Student updated successfully"), some db')
      | .error e =>
        if e.isIntegrity then
          (.resp 400 (.errorObj "Student ID or Email already exists"), some db)
        else (.resp 500 (.errorObj e.message), some db)

/-- `DELETE /api/students/{id}`. -/
def delete_student (idv : Nat) (conn : Option DB) (fault : Option String) :
    Outcome × Option DB :=
  match conn with
  | none => (.resp 500 (.errorObj "Database connection failed"), none)
  | some db =>
    match db.sqlDelete fault idv with
    | .ok (db', n) =>
      if n == 0 then (.resp 404 (.errorObj "Student not found"), some db)
      else (.resp 200 (.messageObj "Student deleted successfully"), some db')
    | .error e => (.resp 500 (.errorObj e.message), some db)

/-- `GET /api/students/search`. The query parameter defaults to the empty
string; a falsy (empty) query short-circuits to an empty array before the
connection is even requested. -/
def search_students (query : Option String) (conn : Option DB)
    (fault : Option String) : Outcome × Option DB :=
  let qv := query.getD ""
  if qv == "" then (.resp 200 (.recordArr []), conn)
  else
    match conn with
    | none => (.resp 500 (.errorObj "Database connection failed"), none)
    | some db =>
      match db.sqlSearch fault qv with
      | .ok rs => (.resp 200 (.recordArr rs), some db)
      | .error e => (.resp 500 (.errorObj e.message), some db)

/-! ### The spec-side notion of case-insensitive substring containment,
and the correspondence with the ILIKE pattern built by the search handler. -/

/-- Characters with a special meaning in a LIKE pattern. -/
def notSpec (c : Char) : Bool := !(c == '%' || c == '_' || c == '\\')

/-- Modelled from the spec: `n` is a leading segment of `t` (used to define
substring containment in the sense of the spec sentence about search). -/
def isPre : List Char → List Char → Bool
  | [], _ => true
  | _ :: _, [] => false
  | p :: ps, c :: s => (c == p) && isPre ps s

/-- Modelled from the spec: `n` occurs as a contiguous substring of `h`
(the spec notion "contains the query as a substring"). -/
def subOf (n h : List Char) : Bool := anySuffix (isPre n) h

theorem pgLower_notSpec (c : Char) (h : notSpec c = true) :
    notSpec (pgLower c) = true := by
  unfold pgLower
  split <;> first | decide | exact h

theorem likeMatch_pct (ps s : List Char) :
    likeMatch ('%' :: ps) s = anySuffix (fun t => likeMatch ps t) s := by
  cases s <;> · rw [likeMatch.eq_def]; simp

theorem likeMatch_lit_nil (p : Char) (ps : List Char)
    (hp1 : (p == '%') = false) (hp2 : (p == '\\') = false) :
    likeMatch (p :: ps) [] = false := by
  rw [likeMatch.eq_def]; simp [hp1, hp2]

theorem likeMatch_lit_cons (p c : Char) (ps s' : List Char)
    (hp1 : (p == '%') = false) (hp2 : (p == '\\') = false)
    (hp3 : (p == '_') = false) :
    likeMatch (p :: ps) (c :: s') = ((c == p) && likeMatch ps s') := by
  rw [likeMatch.eq_def]; simp [hp1, hp2, hp3]

theorem anySuffix_congr (f g : List Char → Bool) (h : ∀ t, f t = g t) :
    ∀ s, anySuffix f s = anySuffix g s := by
  intro s
  induction s with
  | nil => simp [anySuffix, h]
  | cons c s ih => simp [anySuffix, h, ih]

theorem likeMatch_pct_only : ∀ s, likeMatch ['%'] s = true := by
  intro s
  induction s with
  | nil => decide
  | cons c s ih =>
    rw [likeMatch_pct, anySuffix]
    rw [likeMatch_pct] at ih
    simp [ih]

theorem likeMatch_close (ps : List Char) (hps : ps.all notSpec = true) :
    ∀ s, likeMatch (ps ++ ['%']) s = isPre ps s := by
  induction ps with
  | nil =>
    intro s
    simpa [isPre] using likeMatch_pct_only s
  | cons p ps ih =>
    intro s
    simp only [List.all_cons, Bool.and_eq_true] at hps
    obtain ⟨hp, hps⟩ := hps
    have hp1 : (p == '%') = false := by
      revert hp; unfold notSpec; cases hpc : p == '%' <;> simp [hpc]
    have hp2 : (p == '\\') = false := by
      revert hp; unfold notSpec; cases hpc : p == '\\' <;> simp [hpc]
    have hp3 : (p == '_') = false := by
      revert hp; unfold notSpec; cases hpc : p == '_' <;> simp [hpc]
    cases s with
    | nil =>
      rw [List.cons_append, likeMatch_lit_nil p _ hp1 hp2]
      simp [isPre]
    | cons c s' =>
      rw [List.cons_append, likeMatch_lit_cons p c _ s' hp1 hp2 hp3, ih hps s']
      simp [isPre]

/-- For a query without LIKE wildcards, the pattern the search handler
builds matches exactly the strings containing the query as a substring. -/
theorem likeMatch_subOf (q : List Char) (hq : q.all notSpec = true)
    (s : List Char) : likeMatch ('%' :: (q ++ ['%'])) s = subOf q s := by
  rw [likeMatch_pct, subOf]
  exact anySuffix_congr _ _ (fun t => likeMatch_close q hq t) s

theorem isPre_iff (n : List Char) : ∀ t, isPre n t = true ↔ ∃ b, t = n ++ b := by
  induction n with
  | nil => intro t; simp [isPre]
  | cons p n ih =>
    intro t
    cases t with
    | nil => simp [isPre]
    | cons c t' =>
      simp only [isPre, Bool.and_eq_true, beq_iff_eq, ih t', List.cons_append,
        List.cons.injEq]
      constructor
      · rintro ⟨hc, b, hb⟩; exact ⟨b, hc, hb⟩
      · rintro ⟨b, hb, hb'⟩; exact ⟨hb, b, hb'⟩

theorem anySuffix_iff (f : List Char → Bool) :
    ∀ s, anySuffix f s = true ↔ ∃ a t, s = a ++ t ∧ f t = true := by
  intro s
  induction s with
  | nil =>
    simp only [anySuffix]
    constructor
    · intro h; exact ⟨[], [], rfl, h⟩
    · rintro ⟨a, t, ht, hf⟩
      have hnil : t = [] := by
        cases a with
        | nil => simpa using ht.symm
        | cons x xs => simp at ht
      rw [hnil] at hf
      exact hf
  | cons c s' ih =>
    simp only [anySuffix, Bool.or_eq_true, ih]
    constructor
    · rintro (h | ⟨a, t, ht, hf⟩)
      · exact ⟨[], c :: s', rfl, h⟩
      · exact ⟨c :: a, t, by simp [ht], hf⟩
    · rintro ⟨a, t, ht, hf⟩
      cases a with
      | nil =>
        simp only [List.nil_append] at ht
        rw [← ht] at hf
        exact Or.inl hf
      | cons a0 a' =>
        right
        simp only [List.cons_append, List.cons.injEq] at ht
        exact ⟨a', t, ht.2, hf⟩

/-- Boolean containment agrees with the existence of a decomposition. -/
theorem subOf_iff (n h : List Char) :
    subOf n h = true ↔ ∃ a b, h = a ++ n ++ b := by
  rw [subOf, anySuffix_iff]
  constructor
  · rintro ⟨a, t, ht, hf⟩
    obtain ⟨b, hb⟩ := (isPre_iff n t).mp hf
    exact ⟨a, b, by simp [ht, hb]⟩
  · rintro ⟨a, b, hab⟩
    exact ⟨a, n ++ b, by simp [hab], (isPre_iff n (n ++ b)).mpr ⟨b, rfl⟩⟩

/-! ### Lemmas about the ORDER BY id DESC model. -/

theorem mem_insertById (s x : Student) :
    ∀ l, x ∈ insertById s l ↔ x = s ∨ x ∈ l := by
  intro l
  induction l with
  | nil => simp [insertById]
  | cons t ts ih =>
    by_cases h : t.id ≤ s.id
    · simp [insertById, h]
    · simp [insertById, h, ih]
      tauto

theorem perm_insertById (s : Student) :
    ∀ l, List.Perm (insertById s l) (s :: l) := by
  intro l
  induction l with
  | nil => simp [insertById]
  | cons t ts ih =>
    by_cases h : t.id ≤ s.id
    · simp [insertById, h]
    · simp only [insertById, if_neg h]
      exact (ih.cons t).trans (List.Perm.swap s t ts)

theorem perm_sortDesc : ∀ l, List.Perm (sortDesc l) l := by
  intro l
  induction l with
  | nil => simp [sortDesc]
  | cons s ss ih =>
    exact (perm_insertById s (sortDesc ss)).trans (ih.cons s)

theorem pairwise_insertById (s : Student) (l : List Student)
    (h : List.Pairwise (fun a b => b.id ≤ a.id) l) :
    List.Pairwise (fun a b => b.id ≤ a.id) (insertById s l) := by
  induction l with
  | nil => simp [insertById]
  | cons t ts ih =>
    rw [List.pairwise_cons] at h
    obtain ⟨ht, hts⟩ := h
    by_cases hle : t.id ≤ s.id
    · rw [insertById, if_pos hle, List.pairwise_cons]
      refine ⟨?_, List.pairwise_cons.mpr ⟨ht, hts⟩⟩
      intro b hb
      rcases List.mem_cons.mp hb with hb | hb
      · rw [hb]; exact hle
      · have := ht b hb; omega
    · rw [insertById, if_neg hle, List.pairwise_cons]
      refine ⟨?_, ih hts⟩
      intro b hb
      rcases (mem_insertById s b ts).mp hb with hb | hb
      · rw [hb]; omega
      · exact ht b hb

theorem pairwise_sortDesc :
    ∀ l, List.Pairwise (fun a b : Student => b.id ≤ a.id) (sortDesc l) := by
  intro l
  induction l with
  | nil => simp [sortDesc]
  | cons s ss ih => exact pairwise_insertById s (sortDesc ss) ih

/-! ### Small facts about validation and coercion used by several claims. -/

theorem asText_of_truthy (v : JVal) (h : v.truthy = true) :
    ∃ s, asText v = some s := by
  cases v with
  | null => simp [JVal.truthy] at h
  | str s => exact ⟨s, rfl⟩
  | int n => exact ⟨toString n, rfl⟩
  | bool b => exact ⟨if b then "true" else "false", rfl⟩

theorem firstInvalid_none (d : Req) (h : firstInvalid d = none) :
    (dictGet d "student_id").truthy = true ∧ (dictGet d "name").truthy = true ∧
    (dictGet d "email").truthy = true := by
  unfold firstInvalid at h
  rw [List.find?_eq_none] at h
  refine ⟨?_, ?_, ?_⟩
  · have := h "student_id" (by simp [requiredFields])
    simpa using this
  · have := h "name" (by simp [requiredFields])
    simpa using this
  · have := h "email" (by simp [requiredFields])
    simpa using this

theorem find?_congr_str (p q : String → Bool) (h : ∀ x, p x = q x) :
    ∀ l : List String, l.find? p = l.find? q := by
  intro l
  induction l with
  | nil => rfl
  | cons a l ih => rw [List.find?_cons, List.find?_cons, h a, ih]

theorem dictFind_erase_self (d : Req) (k : String) :
    dictFind (dictErase d k) k = none := by
  unfold dictFind dictErase
  induction d with
  | nil => rfl
  | cons kv d ih =>
    cases h : kv.1 == k <;>
      simp only [List.filter_cons, List.find?_cons, h, Bool.not_true, Bool.not_false,
        Bool.false_eq_true, if_false, if_true, cond_false, cond_true] <;>
      exact ih

theorem dictFind_erase_ne (d : Req) (f k : String) (hk : (k == f) = false) :
    dictFind (dictErase d f) k = dictFind d k := by
  have hkf : k ≠ f := by simpa using hk
  unfold dictFind dictErase
  induction d with
  | nil => rfl
  | cons kv d ih =>
    by_cases h : kv.1 = f
    · have h2 : (f == k) = false := by
        cases hfk : f == k
        · rfl
        · exact absurd ((by simpa using hfk) : f = k).symm hkf
      simp only [List.filter_cons, List.find?_cons, h, h2, beq_self_eq_true, Bool.not_true,
        Bool.false_eq_true, if_false, cond_false]
      exact ih
    · have h1 : (kv.1 == f) = false := by
        cases hfk : kv.1 == f
        · rfl
        · exact absurd (by simpa using hfk) h
      cases h3 : kv.1 == k
      · simp only [List.filter_cons, List.find?_cons, h1, h3, Bool.not_false, if_true,
          Bool.false_eq_true, if_false, cond_false, cond_true]
        exact ih
      · simp only [List.filter_cons, List.find?_cons, h1, h3, Bool.not_false, if_true,
          Bool.false_eq_true, if_false, cond_false, cond_true]

/-! ### Claim theorems. -/

/-- C5: for every table state, search with an empty (or absent) query
parameter answers HTTP 200 with an empty JSON array. The result and the
returned state are the untouched input connection — the early return fires
before `get_db_connection` is called, so the database is never consulted
(the equation holds even for a failed connection and for any driver
fault). -/
theorem search_blank_returns_empty (query : Option String) (conn : Option DB)
    (fault : Option String) (hq : query.getD "" = "") :
    search_students query conn fault = (.resp 200 (.recordArr []), conn) := by
  unfold search_students
  simp [hq]

theorem search_blank_returns_empty_witness :
    ((some "" : Option String).getD "" = "" ∧
      search_students (some "") (some { rows := [], nextId := 1 }) none
        = (.resp 200 (.recordArr []), some { rows := [], nextId := 1 }))
  ∧ ((none : Option String).getD "" = "" ∧
      search_students none none (some "boom")
        = (.resp 200 (.recordArr []), none)) :=
  ⟨⟨rfl, search_blank_returns_empty (some "") (some { rows := [], nextId := 1 }) none rfl⟩,
   ⟨rfl, search_blank_returns_empty none none (some "boom") rfl⟩⟩

/-- C6: a create request missing a required field is answered 400 with an
error body naming a required field that failed validation (the first one in
checking order, which is the missing field itself when it is the only
failing one); the connection state flows through untouched and the
response does not depend on the connection or the driver at all, because
validation precedes `get_db_connection` — so the table is unchanged and no
repository operation happens. -/
theorem create_missing_field_rejected (now : String) (d : Req) (f : String)
    (conn : Option DB) (fault : Option String)
    (hf : f ∈ requiredFields) (hmiss : dictFind d f = none) :
    ∃ g, g ∈ requiredFields ∧ (dictGet d g).truthy = false ∧
      firstInvalid d = some g ∧
      add_student now (.jsonObject d) conn fault
        = (.resp 400 (.errorObj (g ++ " is required")), conn) := by
  have hft : (dictGet d f).truthy = false := by
    unfold dictGet
    rw [hmiss]
    rfl
  have hsome : (firstInvalid d).isSome := by
    unfold firstInvalid
    rw [List.find?_isSome]
    exact ⟨f, hf, by simp [hft]⟩
  obtain ⟨g, hg⟩ := Option.isSome_iff_exists.mp hsome
  have hg' : requiredFields.find? (fun x => !(dictGet d x).truthy) = some g := hg
  have hgmem : g ∈ requiredFields := List.mem_of_find?_eq_some hg'
  have hgp := @List.find?_some _ (fun x => !(dictGet d x).truthy) g requiredFields hg'
  simp only [Bool.not_eq_true'] at hgp
  refine ⟨g, hgmem, hgp, hg, ?_⟩
  simp only [add_student, hg]

theorem create_missing_field_rejected_witness :
    ("name" ∈ requiredFields ∧
      dictFind [("student_id", JVal.str "S1"), ("email", JVal.str "a@x.com")] "name" = none)
  ∧ ∃ g, g ∈ requiredFields ∧
      (dictGet [("student_id", JVal.str "S1"), ("email", JVal.str "a@x.com")] g).truthy = false ∧
      firstInvalid [("student_id", JVal.str "S1"), ("email", JVal.str "a@x.com")] = some g ∧
      add_student "2024-01-01 00:00:00"
          (.jsonObject [("student_id", JVal.str "S1"), ("email", JVal.str "a@x.com")])
          (some { rows := [], nextId := 1 }) none
        = (.resp 400 (.errorObj (g ++ " is required")), some { rows := [], nextId := 1 }) :=
  ⟨⟨by decide, by decide⟩,
   create_missing_field_rejected "2024-01-01 00:00:00" _ "name"
     (some { rows := [], nextId := 1 }) none (by decide) (by decide)⟩

theorem firstInvalid_erase (d : Req) (f : String) (v : JVal)
    (hv : dictFind d f = some v) (hfalsy : v.truthy = false) :
    firstInvalid (dictErase d f) = firstInvalid d := by
  unfold firstInvalid
  apply find?_congr_str
  intro g
  by_cases hgf : g = f
  · subst hgf
    unfold dictGet
    rw [dictFind_erase_self, hv]
    simp only [Option.getD_none, Option.getD_some]
    rw [hfalsy]
    rfl
  · unfold dictGet
    rw [dictFind_erase_ne d f g (by simpa using hgf)]

/-- C9: on create, a required field present with a falsy value (empty
string, null, 0 or false) is handled exactly as if the field were absent:
the handler gives the very same answer on the request with the field
removed, and that answer is a 400 naming a required field that failed the
truthiness test, with the connection state passed through untouched. -/
theorem create_falsy_field_rejected (now : String) (d : Req) (f : String) (v : JVal)
    (conn : Option DB) (fault : Option String)
    (hf : f ∈ requiredFields) (hv : dictFind d f = some v)
    (hfalsy : v.truthy = false) :
    add_student now (.jsonObject d) conn fault
      = add_student now (.jsonObject (dictErase d f)) conn fault
  ∧ ∃ g, g ∈ requiredFields ∧ (dictGet d g).truthy = false ∧
      add_student now (.jsonObject d) conn fault
        = (.resp 400 (.errorObj (g ++ " is required")), conn) := by
  have hft : (dictGet d f).truthy = false := by
    unfold dictGet
    rw [hv]
    exact hfalsy
  have hsome : (firstInvalid d).isSome := by
    unfold firstInvalid
    rw [List.find?_isSome]
    exact ⟨f, hf, by simp [hft]⟩
  obtain ⟨g, hg⟩ := Option.isSome_iff_exists.mp hsome
  have hg' : requiredFields.find? (fun x => !(dictGet d x).truthy) = some g := hg
  have hgmem : g ∈ requiredFields := List.mem_of_find?_eq_some hg'
  have hgp := @List.find?_some _ (fun x => !(dictGet d x).truthy) g requiredFields hg'
  simp only [Bool.not_eq_true'] at hgp
  have herase : firstInvalid (dictErase d f) = some g := by
    rw [firstInvalid_erase d f v hv hfalsy, hg]
  constructor
  · simp only [add_student, hg, herase]
  · exact ⟨g, hgmem, hgp, by simp only [add_student, hg]⟩

theorem create_falsy_field_rejected_witness :
    ("name" ∈ requiredFields ∧
      dictFind [("student_id", JVal.str "S1"), ("name", JVal.str ""),
        ("email", JVal.str "a@x.com")] "name" = some (JVal.str "") ∧
      (JVal.str "").truthy = false)
  ∧ (add_student "ts"
        (.jsonObject [("student_id", JVal.str "S1"), ("name", JVal.str ""),
          ("email", JVal.str "a@x.com")]) none none
      = add_student "ts"
        (.jsonObject (dictErase [("student_id", JVal.str "S1"), ("name", JVal.str ""),
          ("email", JVal.str "a@x.com")] "name")) none none
    ∧ ∃ g, g ∈ requiredFields ∧
        (dictGet [("student_id", JVal.str "S1"), ("name", JVal.str ""),
          ("email", JVal.str "a@x.com")] g).truthy = false ∧
        add_student "ts"
          (.jsonObject [("student_id", JVal.str "S1"), ("name", JVal.str ""),
            ("email", JVal.str "a@x.com")]) none none
          = (.resp 400 (.errorObj (g ++ " is required")), none)) :=
  ⟨⟨by decide, by decide, by decide⟩,
   create_falsy_field_rejected "ts" _ "name" (JVal.str "") none none
     (by decide) (by decide) (by decide)⟩

/-- An empty environment, for witnesses. -/
def noEnv : DbConfig :=
  { database_url := none, db_host := none, db_name := none,
    db_user := none, db_password := none, db_port := none }

/-- An empty table with a fresh sequence, for witnesses. -/
def emptyDB : DB := { rows := [], nextId := 1 }

/-- A connection attempt that succeeds with the empty table. -/
def connectOk : ConnTarget → Except String DB := fun _ => .ok emptyDB

/-- A body whose three required fields are present and truthy. -/
def okBody : Req :=
  [("student_id", JVal.str "S1"), ("name", JVal.str "A"), ("email", JVal.str "a@x.com")]

/-- C7: the connection provider is a total function of the configuration
and of the outcome of the underlying connection attempt — it never lets the
attempt raise past its boundary, returning the connection on success and
None (its sole failure signal) on failure; and every handler checks the
None result before touching the database, answering HTTP 500 with the
connection-failure body (for `add_student` after its validation passes, and
for search once the query is non-empty, those being the points where the
connection is requested). -/
theorem connection_failure_contract :
    (∀ (cfg : DbConfig) (connect : ConnTarget → Except String DB),
      (∃ db, connect (connTarget cfg) = .ok db ∧ get_db_connection cfg connect = some db)
      ∨ (∃ m, connect (connTarget cfg) = .error m ∧ get_db_connection cfg connect = none))
  ∧ (∀ fault, get_students none fault
      = (.resp 500 (.errorObj "Database connection failed"), none))
  ∧ (∀ now d fault, firstInvalid d = none →
      add_student now (.jsonObject d) none fault
        = (.resp 500 (.errorObj "Database connection failed"), none))
  ∧ (∀ idv d fault, update_student idv (.jsonObject d) none fault
      = (.resp 500 (.errorObj "Database connection failed"), none))
  ∧ (∀ idv m fault, update_student idv (.jsonNonObject m) none fault
      = (.resp 500 (.errorObj "Database connection failed"), none))
  ∧ (∀ idv fault, delete_student idv none fault
      = (.resp 500 (.errorObj "Database connection failed"), none))
  ∧ (∀ q fault, (q == "") = false →
      search_students (some q) none fault
        = (.resp 500 (.errorObj "Database connection failed"), none)) := by
  refine ⟨?_, ?_, ?_, ?_, ?_, ?_, ?_⟩
  · intro cfg connect
    cases h : connect (connTarget cfg) with
    | ok db =>
      left
      exact ⟨db, rfl, by unfold get_db_connection; rw [h]⟩
    | error m =>
      right
      exact ⟨m, rfl, by unfold get_db_connection; rw [h]⟩
  · intro fault
    rfl
  · intro now d fault hval
    simp only [add_student, hval]
  · intro idv d fault
    rfl
  · intro idv m fault
    rfl
  · intro idv fault
    rfl
  · intro q fault hq
    unfold search_students
    simp [hq]

theorem connection_failure_contract_witness :
    ((∃ db, connectOk (connTarget noEnv) = .ok db ∧
        get_db_connection noEnv connectOk = some db)
      ∨ (∃ m, connectOk (connTarget noEnv) = .error m ∧
        get_db_connection noEnv connectOk = none))
  ∧ (firstInvalid okBody = none ∧
    add_student "ts" (.jsonObject okBody) none none
      = (.resp 500 (.errorObj "Database connection failed"), none))
  ∧ (("ana" == "") = false ∧
    search_students (some "ana") none none
      = (.resp 500 (.errorObj "Database connection failed"), none)) :=
  ⟨connection_failure_contract.1 noEnv connectOk,
   ⟨by decide, connection_failure_contract.2.2.1 "ts" okBody none (by decide)⟩,
   ⟨by decide, connection_failure_contract.2.2.2.2.2.2 "ana" none (by decide)⟩⟩

/-- C10: whenever the database layer fails with a generic (non-integrity)
driver error carrying message `m`, every handler that reached its SQL
statement answers HTTP 500 with exactly `m` — the raw `str(e)` — in the
`error` field of the JSON body, exposing the internal message verbatim
(for `add_student` this is the path where validation has passed, and for
search where the query is non-empty). -/
theorem generic_error_message_exposed :
    (∀ db m, get_students (some db) (some m) = (.resp 500 (.errorObj m), some db))
  ∧ (∀ now d db m, firstInvalid d = none →
      add_student now (.jsonObject d) (some db) (some m)
        = (.resp 500 (.errorObj m), some db))
  ∧ (∀ idv d db m, update_student idv (.jsonObject d) (some db) (some m)
      = (.resp 500 (.errorObj m), some db))
  ∧ (∀ idv db m, delete_student idv (some db) (some m)
      = (.resp 500 (.errorObj m), some db))
  ∧ (∀ q db m, (q == "") = false →
      search_students (some q) (some db) (some m)
        = (.resp 500 (.errorObj m), some db)) := by
  refine ⟨?_, ?_, ?_, ?_, ?_⟩
  · intro db m
    rfl
  · intro now d db m hval
    simp only [add_student, hval]
    rfl
  · intro idv d db m
    rfl
  · intro idv db m
    rfl
  · intro q db m hq
    unfold search_students
    simp [hq]
    rfl

theorem generic_error_message_exposed_witness :
    get_students (some { rows := [], nextId := 1 }) (some "connection already closed")
      = (.resp 500 (.errorObj "connection already closed"), some { rows := [], nextId := 1 })
  ∧ (firstInvalid [("student_id", JVal.str "S1"), ("name", JVal.str "A"),
      ("email", JVal.str "a@x.com")] = none ∧
    add_student "ts" (.jsonObject [("student_id", JVal.str "S1"), ("name", JVal.str "A"),
        ("email", JVal.str "a@x.com")]) (some { rows := [], nextId := 1 })
        (some "server closed the connection unexpectedly")
      = (.resp 500 (.errorObj "server closed the connection unexpectedly"),
         some { rows := [], nextId := 1 }))
  ∧ (("S" == "") = false ∧
    search_students (some "S") (some { rows := [], nextId := 1 }) (some "oops")
      = (.resp 500 (.errorObj "oops"), some { rows := [], nextId := 1 })) :=
  ⟨generic_error_message_exposed.1 _ "connection already closed",
   ⟨by decide, generic_error_message_exposed.2.1 "ts" _ _
      "server closed the connection unexpectedly" (by decide)⟩,
   ⟨by decide, generic_error_message_exposed.2.2.2.2 "S" _ "oops" (by decide)⟩⟩

/-- C8 counterexample: the claim that no request input makes an unhandled
exception escape a handler is false. A POST whose body is valid JSON but
not an object — for example the array `[1]` — passes `request.json`, and
then `data.get` raises AttributeError in the validation loop, which sits
outside the try block: the exception escapes the handler instead of being
turned into a JSON error response. -/
theorem post_nonobject_body_escapes :
    (add_student "ts" (.jsonNonObject "list object has no attribute get")
        (some emptyDB) none).1
      = .escaped (.attributeError "list object has no attribute get")
  ∧ (add_student "ts" (.jsonNonObject "list object has no attribute get")
        (some emptyDB) none).1.isResp = false
  ∧ (add_student "ts" BodyParse.notJson (some emptyDB) none).1.isResp = false := by
  exact ⟨rfl, rfl, rfl⟩

/-- C8 amended: for every request whose body — where one is read at all —
parses as a JSON object, no exception escapes any of the five handlers:
every outcome is an HTTP response with a JSON body and a status code,
whatever the connection state and the driver behaviour. (The PUT handler
even tolerates a non-object JSON body, because its `data.get` calls sit
inside the try block; the POST handler does not, as the counterexample
shows, and an unparsable body escapes both.) -/
theorem handlers_respond_on_object_bodies :
    (∀ conn fault, (get_students conn fault).1.isResp = true)
  ∧ (∀ now d conn fault, (add_student now (.jsonObject d) conn fault).1.isResp = true)
  ∧ (∀ idv d conn fault, (update_student idv (.jsonObject d) conn fault).1.isResp = true)
  ∧ (∀ idv m conn fault, (update_student idv (.jsonNonObject m) conn fault).1.isResp = true)
  ∧ (∀ idv conn fault, (delete_student idv conn fault).1.isResp = true)
  ∧ (∀ q conn fault, (search_students q conn fault).1.isResp = true) := by
  refine ⟨?_, ?_, ?_, ?_, ?_, ?_⟩
  · intro conn fault
    cases conn with
    | none => rfl
    | some db => cases fault <;> rfl
  · intro now d conn fault
    cases hval : firstInvalid d with
    | some f => simp [add_student, hval, Outcome.isResp]
    | none =>
      cases conn with
      | none => simp [add_student, hval, Outcome.isResp]
      | some db =>
        cases hins : db.sqlInsert fault now (dictGet d "student_id") (dictGet d "name")
            (dictGet d "email") (dictGetD d "phone" (.str ""))
            (dictGetD d "course" (.str "")) (dictGet d "year")
            (dictGetD d "address" (.str "")) with
        | ok p => simp [add_student, hval, hins, Outcome.isResp]
        | error e =>
          cases he : e.isIntegrity <;>
            simp [add_student, hval, hins, he, Outcome.isResp]
  · intro idv d conn fault
    cases conn with
    | none => rfl
    | some db =>
      cases hupd : db.sqlUpdate fault idv (dictGet d "student_id") (dictGet d "name")
          (dictGet d "email") (dictGetD d "phone" (.str ""))
          (dictGetD d "course" (.str "")) (dictGet d "year")
          (dictGetD d "address" (.str "")) with
      | ok p =>
        cases hz : p.2 == 0 <;>
          simp [update_student, hupd, hz, Outcome.isResp]
      | error e =>
        cases he : e.isIntegrity <;>
          simp [update_student, hupd, he, Outcome.isResp]
  · intro idv m conn fault
    cases conn <;> rfl
  · intro idv conn fault
    cases conn with
    | none => rfl
    | some db =>
      cases hdel : db.sqlDelete fault idv with
      | ok p =>
        cases hz : p.2 == 0 <;>
          simp [delete_student, hdel, hz, Outcome.isResp]
      | error e => simp [delete_student, hdel, Outcome.isResp]
  · intro q conn fault
    cases hq : q.getD "" == ""
    · cases conn with
      | none => simp [search_students, hq, Outcome.isResp]
      | some db =>
        cases hs : db.sqlSearch fault (q.getD "") <;>
          simp [search_students, hq, hs, Outcome.isResp]
    · simp [search_students, hq, Outcome.isResp]

/-- C4: an update whose id matches no row answers 404 not-found and leaves
the table untouched (the returned state is exactly the input state). The
hypotheses pin the frame the spec assumes for this error class: the
connection succeeded, the driver raised no operational fault, and the
`year` value coerces into its integer column (a value that does not is the
spec's separate generic-persistence-error class, answered 500 — in both
cases no row is modified). -/
theorem update_nonexistent_notfound (d : Req) (db : DB) (idv : Nat) (yr : Option Int)
    (hyr : asInt (dictGet d "year") = .ok yr)
    (hnone : db.rows.any (fun r => r.id == idv) = false) :
    update_student idv (.jsonObject d) (some db) none
      = (.resp 404 (.errorObj "Student not found"), some db) := by
  have hupd : db.sqlUpdate none idv (dictGet d "student_id") (dictGet d "name")
      (dictGet d "email") (dictGetD d "phone" (.str ""))
      (dictGetD d "course" (.str "")) (dictGet d "year")
      (dictGetD d "address" (.str "")) = .ok (db, 0) := by
    unfold DB.sqlUpdate
    rw [hyr]
    simp [hnone]
  simp [update_student, hupd]

theorem update_nonexistent_notfound_witness :
    (asInt (dictGet okBody "year") = .ok none ∧
      emptyDB.rows.any (fun r => r.id == 7) = false)
  ∧ update_student 7 (.jsonObject okBody) (some emptyDB) none
      = (.resp 404 (.errorObj "Student not found"), some emptyDB) :=
  ⟨⟨by rfl, by decide⟩,
   update_nonexistent_notfound okBody emptyDB 7 none (by rfl) (by decide)⟩

/-- A stored row, as `add_student` would have created it. -/
def anaRow : Student :=
  { id := 1, student_id := "S1", name := "Ana", email := "ana@x.com",
    phone := some "", course := some "", year := none, address := some "",
    created_at := some "2024-01-01 00:00:00" }

/-- A one-row table whose row collides with `okBody` on student_id. -/
def dupDB : DB := { rows := [anaRow], nextId := 2 }

/-- C1: an insert whose student_id or email duplicates an existing row (the
comparison on the values as the columns store them) fails with the
uniqueness-conflict answer — HTTP 400 and the fixed conflict body — and the
returned table state is exactly the input state: the rollback leaves the
same rows, so the same row count. The hypotheses pin the frame the spec
assumes for the conflict class: validation passed (the handler otherwise
answers 400 before any SQL, with the table equally untouched), the
connection succeeded, no driver fault, and the `year` value coerces into
its integer column (otherwise the spec's separate generic-error class
answers 500, again without inserting anything). -/
theorem insert_duplicate_conflict (now : String) (d : Req) (db : DB) (yr : Option Int)
    (hval : firstInvalid d = none)
    (hyr : asInt (dictGet d "year") = .ok yr)
    (hdup : db.rows.any (fun r =>
        asText (dictGet d "student_id") == some r.student_id ||
        asText (dictGet d "email") == some r.email) = true) :
    add_student now (.jsonObject d) (some db) none
      = (.resp 400 (.errorObj "Student ID or Email already exists"), some db) := by
  obtain ⟨ht1, ht2, ht3⟩ := firstInvalid_none d hval
  obtain ⟨sid, hsid⟩ := asText_of_truthy _ ht1
  obtain ⟨nm, hnm⟩ := asText_of_truthy _ ht2
  obtain ⟨em, hem⟩ := asText_of_truthy _ ht3
  have hdup' : db.rows.any (fun r => r.student_id == sid || r.email == em) = true := by
    rw [List.any_eq_true] at hdup ⊢
    obtain ⟨r, hr, hpred⟩ := hdup
    rw [hsid, hem] at hpred
    refine ⟨r, hr, ?_⟩
    rw [Bool.or_eq_true] at hpred ⊢
    rcases hpred with h | h
    · left
      have : sid = r.student_id := by simpa using h
      simp [this]
    · right
      have : em = r.email := by simpa using h
      simp [this]
  have hins : db.sqlInsert none now (dictGet d "student_id") (dictGet d "name")
      (dictGet d "email") (dictGetD d "phone" (.str ""))
      (dictGetD d "course" (.str "")) (dictGet d "year")
      (dictGetD d "address" (.str "")) = .error .uniqueViolation := by
    unfold DB.sqlInsert
    rw [hyr, hsid, hnm, hem]
    simp [hdup']
  simp [add_student, hval, hins, DbError.isIntegrity]

theorem insert_duplicate_conflict_witness :
    (firstInvalid okBody = none ∧
      asInt (dictGet okBody "year") = .ok none ∧
      dupDB.rows.any (fun r =>
        asText (dictGet okBody "student_id") == some r.student_id ||
        asText (dictGet okBody "email") == some r.email) = true)
  ∧ add_student "ts" (.jsonObject okBody) (some dupDB) none
      = (.resp 400 (.errorObj "Student ID or Email already exists"), some dupDB) :=
  ⟨⟨by decide, by rfl, by decide⟩,
   insert_duplicate_conflict "ts" okBody dupDB none (by decide) (by rfl) (by decide)⟩

/-- C2 counterexample: the claim that every update of an existing id is a
full overwrite writing nulls for absent no-default fields is false. On a
one-row table, a PUT for the existing id 1 with an empty JSON object makes
the handler bind NULL to the NOT NULL columns student_id, name and email;
the database rejects the statement with an IntegrityError, the handler
answers 400 (with the misleading duplicate-key body), and the old row
survives with every field intact — its name is still "Ana", not null (a
null name is not even representable in a stored row). -/
theorem update_empty_body_rejected_row_kept :
    update_student 1 (.jsonObject []) (some dupDB) none
      = (.resp 400 (.errorObj "Student ID or Email already exists"), some dupDB)
  ∧ dupDB.rows.map Student.name = ["Ana"]
  ∧ dictGet ([] : Req) "name" = JVal.null :=
  ⟨by decide, by decide, by decide⟩

/-- C2 amended: an update of an existing id is a full overwrite provided
the request supplies non-null student_id, name and email (the NOT NULL
columns), a year that coerces into its integer column, and values that do
not collide with a different row on the unique columns; then every mutable
field of every row carrying that id is replaced by exactly the supplied
value — null is written for an absent `year` (the only no-default nullable
field), absent optional fields default to the empty string, nothing of the
old mutable values survives, and only `id` and `created_at` are kept. -/
theorem update_full_overwrite (idv : Nat) (d : Req) (db : DB)
    (sid nm em : String) (yr : Option Int)
    (hsid : asText (dictGet d "student_id") = some sid)
    (hnm : asText (dictGet d "name") = some nm)
    (hem : asText (dictGet d "email") = some em)
    (hyr : asInt (dictGet d "year") = .ok yr)
    (hrow : db.rows.any (fun r => r.id == idv) = true)
    (hnoconf : db.rows.any (fun r =>
        !(r.id == idv) && (r.student_id == sid || r.email == em)) = false) :
    (update_student idv (.jsonObject d) (some db) none
      = (.resp 200 (.messageObj "Student updated successfully"),
         some { db with
                rows := db.rows.map (fun r =>
                  if r.id == idv then
                    { id := r.id, student_id := sid, name := nm, email := em,
                      phone := asText (dictGetD d "phone" (.str "")),
                      course := asText (dictGetD d "course" (.str "")),
                      year := yr,
                      address := asText (dictGetD d "address" (.str "")),
                      created_at := r.created_at }
                  else r) }))
  ∧ (dictFind d "year" = none → yr = none)
  ∧ (dictFind d "phone" = none → asText (dictGetD d "phone" (.str "")) = some "")
  ∧ (dictFind d "course" = none → asText (dictGetD d "course" (.str "")) = some "")
  ∧ (dictFind d "address" = none → asText (dictGetD d "address" (.str "")) = some "") := by
  have hupd : db.sqlUpdate none idv (dictGet d "student_id") (dictGet d "name")
      (dictGet d "email") (dictGetD d "phone" (.str ""))
      (dictGetD d "course" (.str "")) (dictGet d "year")
      (dictGetD d "address" (.str ""))
      = .ok ({ db with
               rows := db.rows.map (fun r =>
                 if r.id == idv then
                   { id := r.id, student_id := sid, name := nm, email := em,
                     phone := asText (dictGetD d "phone" (.str "")),
                     course := asText (dictGetD d "course" (.str "")),
                     year := yr,
                     address := asText (dictGetD d "address" (.str "")),
                     created_at := r.created_at }
                 else r) }, 1) := by
    unfold DB.sqlUpdate
    rw [hyr, hsid, hnm, hem]
    simp [hrow, hnoconf]
  refine ⟨by simp [update_student, hupd], ?_, ?_, ?_, ?_⟩
  · intro h
    have h0 : dictGet d "year" = JVal.null := by
      unfold dictGet
      rw [h]
      rfl
    rw [h0] at hyr
    simp [asInt] at hyr
    exact hyr.symm
  · intro h
    unfold dictGetD
    rw [h]
    rfl
  · intro h
    unfold dictGetD
    rw [h]
    rfl
  · intro h
    unfold dictGetD
    rw [h]
    rfl

/-- A full-update body supplying the three required columns. -/
def updBody : Req :=
  [("student_id", JVal.str "S2"), ("name", JVal.str "Bo"), ("email", JVal.str "bo@x.com")]

theorem update_full_overwrite_witness :
    (asText (dictGet updBody "student_id") = some "S2" ∧
     asText (dictGet updBody "name") = some "Bo" ∧
     asText (dictGet updBody "email") = some "bo@x.com" ∧
     asInt (dictGet updBody "year") = .ok none ∧
     dupDB.rows.any (fun r => r.id == 1) = true ∧
     dupDB.rows.any (fun r =>
       !(r.id == 1) && (r.student_id == "S2" || r.email == "bo@x.com")) = false)
  ∧ update_student 1 (.jsonObject updBody) (some dupDB) none
      = (.resp 200 (.messageObj "Student updated successfully"),
         some { dupDB with
                rows := dupDB.rows.map (fun r =>
                  if r.id == 1 then
                    { id := r.id, student_id := "S2", name := "Bo", email := "bo@x.com",
                      phone := asText (dictGetD updBody "phone" (.str "")),
                      course := asText (dictGetD updBody "course" (.str "")),
                      year := none,
                      address := asText (dictGetD updBody "address" (.str "")),
                      created_at := r.created_at }
                  else r) }) :=
  ⟨⟨by rfl, by rfl, by rfl, by rfl, by decide, by decide⟩,
   (update_full_overwrite 1 updBody dupDB "S2" "Bo" "bo@x.com" none
     (by rfl) (by rfl) (by rfl) (by rfl) (by decide) (by decide)).1⟩

theorem pgLower_pct : pgLower '%' = '%' := by decide

theorem percent_pat_data (q : String) :
    ("%" ++ q ++ "%").data = '%' :: (q.data ++ ['%']) := by
  rw [String.data_append, String.data_append]
  rfl

theorem map_pgLower_notSpec (l : List Char) (h : l.all notSpec = true) :
    (l.map pgLower).all notSpec = true := by
  rw [List.all_map]
  rw [List.all_eq_true] at h ⊢
  intro c hc
  exact pgLower_notSpec c (h c hc)

/-- The filter predicate the search SQL evaluates, rewritten: for a
wildcard-free query, `ILIKE '%' || q || '%'` is exactly case-insensitive
substring containment. -/
theorem ilike_percent_pattern (q s : String) (hq : q.data.all notSpec = true) :
    ilike s ("%" ++ q ++ "%") = subOf (q.data.map pgLower) (s.data.map pgLower) := by
  unfold ilike
  rw [percent_pat_data]
  have hmap : (('%' :: (q.data ++ ['%'])).map pgLower)
      = '%' :: (q.data.map pgLower ++ ['%']) := by
    simp [List.map_cons, List.map_append, pgLower_pct]
  rw [hmap]
  exact likeMatch_subOf (q.data.map pgLower) (map_pgLower_notSpec q.data hq) _

/-- C3 amended: for a non-empty query containing none of the LIKE special
characters percent, underscore and backslash, search returns exactly the
rows whose name or student_id contains the query as a case-insensitive
substring — every matching row is in the result, every non-matching row is
excluded — and the result is ordered by id descending. (For queries
containing a special character the ILIKE pattern over- or under-matches,
as the counterexample shows.) -/
theorem search_substring_exact (q : String) (db : DB)
    (hne : (q == "") = false)
    (hspec : q.data.all notSpec = true) :
    ∃ rs, search_students (some q) (some db) none
        = (.resp 200 (.recordArr rs), some db)
      ∧ rs = sortDesc (db.rows.filter (fun r =>
          ilike r.name ("%" ++ q ++ "%") || ilike r.student_id ("%" ++ q ++ "%")))
      ∧ (∀ r : Student, r ∈ rs ↔ r ∈ db.rows ∧
          ((∃ a b, r.name.data.map pgLower = a ++ q.data.map pgLower ++ b) ∨
           (∃ a b, r.student_id.data.map pgLower = a ++ q.data.map pgLower ++ b)))
      ∧ List.Pairwise (fun a b : Student => b.id ≤ a.id) rs := by
  refine ⟨sortDesc (db.rows.filter (fun r =>
      ilike r.name ("%" ++ q ++ "%") || ilike r.student_id ("%" ++ q ++ "%"))),
    ?_, rfl, ?_, pairwise_sortDesc _⟩
  · unfold search_students DB.sqlSearch
    simp [hne]
  · intro r
    rw [(perm_sortDesc _).mem_iff, List.mem_filter]
    have h1 : ∀ s : String, (ilike s ("%" ++ q ++ "%") = true)
        ↔ ∃ a b, s.data.map pgLower = a ++ q.data.map pgLower ++ b := by
      intro s
      rw [ilike_percent_pattern q s hspec, subOf_iff]
    constructor
    · rintro ⟨hrmem, hpred⟩
      rw [Bool.or_eq_true] at hpred
      exact ⟨hrmem, hpred.imp (h1 r.name).mp (h1 r.student_id).mp⟩
    · rintro ⟨hrmem, hpred⟩
      refine ⟨hrmem, ?_⟩
      rw [Bool.or_eq_true]
      exact hpred.imp (h1 r.name).mpr (h1 r.student_id).mpr

theorem search_substring_exact_witness :
    (("an" == "") = false ∧ "an".data.all notSpec = true)
  ∧ ∃ rs, search_students (some "an") (some dupDB) none
        = (.resp 200 (.recordArr rs), some dupDB)
      ∧ rs = sortDesc (dupDB.rows.filter (fun r =>
          ilike r.name ("%" ++ "an" ++ "%") || ilike r.student_id ("%" ++ "an" ++ "%")))
      ∧ (∀ r : Student, r ∈ rs ↔ r ∈ dupDB.rows ∧
          ((∃ a b, r.name.data.map pgLower = a ++ "an".data.map pgLower ++ b) ∨
           (∃ a b, r.student_id.data.map pgLower = a ++ "an".data.map pgLower ++ b)))
      ∧ List.Pairwise (fun a b : Student => b.id ≤ a.id) rs :=
  ⟨⟨by decide, by decide⟩, search_substring_exact "an" dupDB (by decide) (by decide)⟩

/-- A stored row whose name the wildcard query will spuriously match. -/
def axbRow : Student :=
  { id := 1, student_id := "S1", name := "axb", email := "x@x.com",
    phone := some "", course := some "", year := none, address := some "",
    created_at := none }

/-- A one-row table for the search counterexample. -/
def axbDB : DB := { rows := [axbRow], nextId := 2 }

/-- C3 counterexample: the claim fails for queries containing a LIKE
special character, because the handler splices the raw query between two
percent signs. The query "a_b" returns the row named "axb" — the
underscore matches any single character — although "a_b" is not a
case-insensitive substring of "axb" nor of "S1", so the result contains a
row the claim says must be excluded. -/
theorem search_wildcard_overmatches :
    search_students (some "a_b") (some axbDB) none
      = (.resp 200 (.recordArr [axbRow]), some axbDB)
  ∧ subOf ("a_b".data.map pgLower) ("axb".data.map pgLower) = false
  ∧ subOf ("a_b".data.map pgLower) ("S1".data.map pgLower) = false
  ∧ ¬ (∃ a b, "axb".data.map pgLower = a ++ "a_b".data.map pgLower ++ b) := by
  refine ⟨by decide, by decide, by decide, ?_⟩
  intro h
  exact absurd ((subOf_iff _ _).mpr h) (by decide)
